import Mathlib

/-!
Verification of the BFQ I/O-scheduler core (src/block/bfq-iosched.c) against
its natural-language specification.  The definitions below are shallow
embeddings of the C functions named after them; machine integers are modelled
by Nat (with explicit truncation where an assignment narrows the type), C
structure fields that a function reads become fields of an explicit state
record, and time- or tree-dependent conditions that the scheduler computes
elsewhere are passed in as Boolean inputs.  Definitions whose doc comment
starts with "Modelled from the spec:" correspond to functions of this
repository that live in files not present in the snapshot (bfq-sched.c,
bfq.h); they follow the specification text.
-/

/- Constants from src/block/bfq-iosched.c (lines 85-125). -/

def bfq_async_charge_factor : Nat := 10

def bfq_default_max_budget : Nat := 16 * 1024

def bfq_stats_min_budgets : Nat := 194

def BFQ_RATE_SHIFT : Nat := 16

def BFQ_RATE_MIN_SAMPLES : Nat := 32

def BFQ_RATE_MIN_INTERVAL : Nat := 300 * 1000

def BFQ_RATE_REF_INTERVAL : Nat := 1000000

def BFQQ_CLOSE_THR : Nat := 8 * 1024

/- The expiration reasons of enum bfqq_expiration. -/

inductive Expiration where
  | too_idle
  | budget_timeout
  | budget_exhausted
  | no_more_requests
  | preempted
deriving DecidableEq

/-! ### Service charging (bfq_serv_to_charge, lines 543-560) -/

/-- The fields of bfq_queue / bfq_data that bfq_serv_to_charge reads. -/
structure ChargeCtx where
  sync : Bool
  wr_coeff : Nat
  wr_busy_queues : Nat

/-- Embeds bfq_serv_to_charge: the service charged for a request of
a given number of sectors. -/
def bfq_serv_to_charge (sectors : Nat) (q : ChargeCtx) : Nat :=
  if q.sync || decide (1 < q.wr_coeff) then sectors
  else if q.wr_busy_queues = 0 then sectors * bfq_async_charge_factor
  else sectors * 2 * bfq_async_charge_factor

/-! ### Cooperator proximity (BFQQ_CLOSE_THR, bfq_rq_close_to_sector,
lines 113-114 and 1688-1693) -/

/-- Embeds bfq_rq_close_to_sector: positions are in 512-byte sectors,
the distance is compared against BFQQ_CLOSE_THR. -/
def bfq_rq_close_to_sector (pos sector : Int) : Bool :=
  decide ((pos - sector).natAbs ≤ BFQQ_CLOSE_THR)

/-- Follows the words of the spec for comparison: a candidate within
8 MiB (in 512-byte sectors) of the given sector. -/
def spec_close_within_8MiB (pos sector : Int) : Bool :=
  decide ((pos - sector).natAbs ≤ 8 * 1024 * 1024 / 512)

/-! ### Idling policy (bfq_symmetric_scenario lines 382-428,
bfq_bfqq_may_idle lines 3183-3405) -/

/-- The fields of bfq_data / bfq_queue that bfq_bfqq_may_idle reads.
differentiated_weights stands for bfq_differentiated_weights(bfqd): the
weight-counter trees contain at least two distinct weights. -/
structure IdleCtx where
  strict_guarantees : Bool
  hw_tag : Bool
  nonrot : Bool
  IO_bound : Bool
  idle_window : Bool
  wr_busy_queues : Nat
  wr_coeff : Nat
  differentiated_weights : Bool
  in_large_burst : Bool
  sync : Bool

/-- Embeds bfq_symmetric_scenario (line 425-428). -/
def bfq_symmetric_scenario (s : IdleCtx) : Bool :=
  !s.differentiated_weights

/-- Embeds bfq_bfqq_may_idle (lines 3183-3405). -/
def bfq_bfqq_may_idle (s : IdleCtx) : Bool :=
  if s.strict_guarantees then true
  else
    let idling_boosts_thr :=
      !s.hw_tag || (!s.nonrot && s.IO_bound && s.idle_window)
    let idling_boosts_thr_without_issues :=
      idling_boosts_thr && decide (s.wr_busy_queues = 0)
    let asymmetric_scenario :=
      decide (1 < s.wr_coeff) || !bfq_symmetric_scenario s
    let idling_needed_for_service_guarantees :=
      asymmetric_scenario && !s.in_large_burst
    s.sync && (idling_boosts_thr_without_issues ||
               idling_needed_for_service_guarantees)

/-- Follows the words of the spec for comparison: asymmetry is claimed to
hold as soon as SOME weight-raised stream exists (here: a weight-raised
stream is busy, or the stream at hand is itself raised) or the
weight-counter trees prove unequal weights. -/
def spec_may_idle (s : IdleCtx) : Bool :=
  s.strict_guarantees ||
  (s.sync &&
    (((!s.hw_tag || (!s.nonrot && s.IO_bound && s.idle_window)) &&
        decide (s.wr_busy_queues = 0)) ||
     ((decide (0 < s.wr_busy_queues) || decide (1 < s.wr_coeff) ||
         s.differentiated_weights) && !s.in_large_burst)))

/-! ### Idle-slice timer handler (bfq_idle_slice_timer, lines 4559-4608) -/

/-- The fields of the in-service queue that the timer handler reads.
queued_async and queued_sync are bfqq->queued[0] and bfqq->queued[1]. -/
structure TimerQueue where
  pid : Nat
  budget_timeout_passed : Bool
  queued_async : Nat
  queued_sync : Nat

/-- The state the timer handler reads: only the current in-service queue. -/
structure TimerCtx where
  in_service_queue : Option TimerQueue

/-- Embeds bfq_idle_slice_timer: returns the pid of the expired queue and
the expiration reason, or none when no expiration is performed (the
handler then only schedules a dispatch). -/
def bfq_idle_slice_timer (s : TimerCtx) : Option (Nat × Expiration) :=
  match s.in_service_queue with
  | none => none
  | some q =>
    if q.budget_timeout_passed then some (q.pid, Expiration.budget_timeout)
    else if q.queued_async = 0 && q.queued_sync = 0 then
      some (q.pid, Expiration.too_idle)
    else none

/-! ### Peak-rate estimator (bfq_reset_rate_computation lines 2284-2299,
bfq_update_rate_reset lines 2301-2429, bfq_update_peak_rate lines 2463-2538) -/

/-- The peak-rate estimator state of bfq_data.  Timestamps are in ns,
delta_from_first_us in microseconds; the raw rate and peak_rate are in
sectors/usec shifted left by BFQ_RATE_SHIFT. -/
structure RateWin where
  peak_rate_samples : Nat
  sequential_samples : Nat
  tot_sectors_dispatched : Nat
  delta_from_first_us : Nat
  last_completion : Nat
  first_dispatch : Nat
  last_rq_max_size : Nat
  peak_rate : Nat

/-- Embeds bfq_reset_rate_computation: with a new request (its sector
count given) the window restarts with one sample; with no request only
the sample count is cleared, forcing a full re-init on the next
dispatch. -/
def bfq_reset_rate_computation (s : RateWin) (rq_sectors : Option Nat) : RateWin :=
  match rq_sectors with
  | some n =>
    { s with peak_rate_samples := 1, sequential_samples := 0,
             tot_sectors_dispatched := n, last_rq_max_size := n }
  | none => { s with peak_rate_samples := 0 }

/-- First step of the smoothing weight (line 2388). -/
def rate_weight_seq (sequential_samples peak_rate_samples : Nat) : Nat :=
  9 * sequential_samples / peak_rate_samples

/-- Smoothing weight after refinement by the window duration and the
min_t cap (lines 2394-2396). -/
def rate_weight (sequential_samples peak_rate_samples delta_us : Nat) : Nat :=
  min 8 (rate_weight_seq sequential_samples peak_rate_samples * delta_us /
         BFQ_RATE_REF_INTERVAL)

/-- The low-pass filter divisor (line 2402). -/
def rate_divisor (sequential_samples peak_rate_samples delta_us : Nat) : Nat :=
  10 - rate_weight sequential_samples peak_rate_samples delta_us

/-- Embeds bfq_update_rate_reset: validity test, observation-interval
extension to the last completion, raw rate (a u32, hence the truncation),
sample rejection test, and the low-pass filter, followed by the window
reset. -/
def bfq_update_rate_reset (s : RateWin) (rq_sectors : Option Nat) : RateWin :=
  if s.peak_rate_samples < BFQ_RATE_MIN_SAMPLES ||
     s.delta_from_first_us < BFQ_RATE_MIN_INTERVAL then
    bfq_reset_rate_computation s rq_sectors
  else
    let delta_us := max s.delta_from_first_us
      ((s.last_completion - s.first_dispatch) / 1000)
    let bw := (s.tot_sectors_dispatched <<< BFQ_RATE_SHIFT) / delta_us % 2 ^ 32
    if (decide ((3 * s.sequential_samples) >>> 2 < s.peak_rate_samples) &&
          decide (bw ≤ s.peak_rate)) ||
       decide (20 <<< BFQ_RATE_SHIFT < bw) then
      bfq_reset_rate_computation { s with delta_from_first_us := delta_us }
        rq_sectors
    else
      let divisor :=
        rate_divisor s.sequential_samples s.peak_rate_samples delta_us
      let peak := s.peak_rate * (divisor - 1) / divisor + bw / divisor
      bfq_reset_rate_computation
        { s with delta_from_first_us := delta_us, peak_rate := peak }
        rq_sectors

/-- Follows the words of the spec for comparison: reject the sample iff
the fraction of sequential samples is below 3/4 (4 seq < 3 total) and the
raw rate does not exceed the current estimate, or the raw rate is
implausibly high. -/
def spec_reject_sample (peak_rate_samples sequential_samples bw peak_rate : Nat) : Bool :=
  (decide (4 * sequential_samples < 3 * peak_rate_samples) &&
     decide (bw ≤ peak_rate)) ||
  decide (20 <<< BFQ_RATE_SHIFT < bw)

/-- The two sample counters of the estimator, for the reachability
analysis of bfq_update_peak_rate. -/
structure RateCounts where
  samples : Nat
  seq : Nat
deriving DecidableEq

/-- Embeds the effect of one bfq_update_peak_rate call on the sample
counters.  The Boolean inputs abstract the conditions the function reads
from the clock and the driver: long_idle is the greater-than-100ms idle
test of line 2487, is_seq the sequentiality test of lines 2499-2501, and
window_full the greater-or-equal-to-BFQ_RATE_REF_INTERVAL test of line
2522 (both resetting paths end in bfq_reset_rate_computation with the
dispatched request, hence in one sample). -/
def bfq_update_peak_rate_counts (s : RateCounts)
    (is_seq long_idle window_full : Bool) : RateCounts :=
  if s.samples = 0 then ⟨1, 0⟩
  else if long_idle then ⟨1, 0⟩
  else
    let incremented : RateCounts :=
      ⟨s.samples + 1, if is_seq then s.seq + 1 else s.seq⟩
    if window_full then ⟨1, 0⟩ else incremented

/-- Embeds the effect on the counters of the late-completion path
(bfq_completed_request line 4308): bfq_update_rate_reset with a null
request clears only the sample count. -/
def rate_counts_late_completion (s : RateCounts) : RateCounts :=
  ⟨0, s.seq⟩

/-- The estimator counter states reachable from device initialisation
(both counters zeroed) through dispatches and late completions. -/
inductive RateReachable : RateCounts → Prop where
  | init : RateReachable ⟨0, 0⟩
  | dispatch (s : RateCounts) (is_seq long_idle window_full : Bool) :
      RateReachable s →
      RateReachable (bfq_update_peak_rate_counts s is_seq long_idle window_full)
  | completion (s : RateCounts) :
      RateReachable s → RateReachable (rate_counts_late_completion s)

/-! ### Budget arithmetic (bfq_max_budget and bfq_min_budget lines
905-928, __bfq_bfqq_recalc_budget lines 2631-2796, bfq_bfqq_budget_left
lines 898-903, the dispatch charge of bfq_dispatch_request lines
3551-3634) -/

/-- The fields of bfq_data that the budget functions read. -/
structure BudgetData where
  bfq_max_budget : Nat
  budgets_assigned : Nat
  bfq_user_max_budget : Nat
  wr_busy_queues : Nat

/-- Embeds the function bfq_max_budget: the device max budget once enough
budgets have been assigned for the statistics to be safe, the default
before that. -/
def bfq_max_budget (d : BudgetData) : Nat :=
  if d.budgets_assigned < bfq_stats_min_budgets then bfq_default_max_budget
  else d.bfq_max_budget

/-- Embeds bfq_min_budget. -/
def bfq_min_budget (d : BudgetData) : Nat :=
  if d.budgets_assigned < bfq_stats_min_budgets then
    bfq_default_max_budget / 32
  else d.bfq_max_budget / 32

/-- The fields of bfq_queue / bfq_entity that the budget recalculation
and the dispatch charge read and write.  budget and service are the
entity fields; next_rq_sectors is the sector count of bfqq->next_rq when
present. -/
structure BudgetQueue where
  max_budget : Nat
  service : Nat
  budget : Nat
  sync : Bool
  wr_coeff : Nat
  dispatched : Nat
  next_rq_sectors : Option Nat

/-- The clamp applied after the switch of __bfq_bfqq_recalc_budget
(lines 2769-2771). -/
def bfq_budget_clamp (d : BudgetData) (b : Nat) : Nat :=
  if bfq_stats_min_budgets ≤ d.budgets_assigned ∧ d.bfq_user_max_budget = 0
  then min b d.bfq_max_budget
  else b

/-- Embeds __bfq_bfqq_recalc_budget: returns the queue with its new
max_budget and (when a next request exists) its new entity budget; the
switch default (PREEMPTED on a sync non-raised queue) returns early and
writes nothing. -/
def __bfq_bfqq_recalc_budget (d : BudgetData) (q : BudgetQueue)
    (reason : Expiration) : BudgetQueue :=
  let min_budget := bfq_min_budget d
  let budget := if q.wr_coeff = 1 then q.max_budget else 2 * min_budget
  if q.sync = true ∧ q.wr_coeff = 1 ∧ reason = Expiration.preempted then q
  else
    let budget :=
      if q.sync = true ∧ q.wr_coeff = 1 then
        match reason with
        | Expiration.too_idle =>
          if 0 < q.dispatched then min (budget * 2) d.bfq_max_budget
          else if 5 * min_budget < budget then budget - 4 * min_budget
          else min_budget
        | Expiration.budget_timeout => min (budget * 2) d.bfq_max_budget
        | Expiration.budget_exhausted => min (budget * 4) d.bfq_max_budget
        | Expiration.no_more_requests => max q.service min_budget
        | Expiration.preempted => budget
      else if q.sync = false then d.bfq_max_budget
      else budget
    let new_max := bfq_budget_clamp d budget
    let entity_budget :=
      match q.next_rq_sectors with
      | some n =>
        max new_max (bfq_serv_to_charge n ⟨q.sync, q.wr_coeff, d.wr_busy_queues⟩)
      | none => q.budget
    { q with max_budget := new_max, budget := entity_budget }

/-- Embeds bfq_bfqq_budget_left (an int in the source). -/
def bfq_bfqq_budget_left (q : BudgetQueue) : Int :=
  (q.budget : Int) - (q.service : Int)

/-- Modelled from the spec: bfq_bfqq_served is defined in bfq-sched.c,
absent from this snapshot; per the spec a dispatch charges the stream's
budget, accumulating the charged sectors in the service counter. -/
def bfq_bfqq_served (q : BudgetQueue) (served : Nat) : BudgetQueue :=
  { q with service := q.service + served }

/-- Embeds the budget guard of bfq_dispatch_request (lines 3564-3594):
when the charge of the picked request exceeds the remaining budget the
dispatch fails and the queue is expired with BUDGET_EXHAUSTED (none);
otherwise the queue is charged with the service. -/
def bfq_dispatch_request_charge (q : BudgetQueue) (charge : Nat) :
    Option BudgetQueue :=
  if bfq_bfqq_budget_left q < (charge : Int) then none
  else some (bfq_bfqq_served q charge)

/-! ### Merge / split state saving (bfq_bfqq_save_state lines 1953-1967,
bfq_bfqq_resume_state lines 633-645, bfq_init_bfqq lines 3915-3957) -/

/-- The saved fields of bfq_io_cq. -/
structure SavedState where
  saved_idle_window : Bool
  saved_IO_bound : Bool
  saved_in_large_burst : Bool
  was_in_burst_list : Bool

/-- The per-queue flags involved in merge and split. -/
structure CoopQueueState where
  idle_window : Bool
  IO_bound : Bool
  in_large_burst : Bool
  in_burst_list : Bool
  wr_coeff : Nat

/-- Embeds bfq_bfqq_save_state (the bic at hand being non-null). -/
def bfq_bfqq_save_state (q : CoopQueueState) : SavedState :=
  { saved_idle_window := q.idle_window
    saved_IO_bound := q.IO_bound
    saved_in_large_burst := q.in_large_burst
    was_in_burst_list := q.in_burst_list }

/-- Embeds bfq_bfqq_resume_state: only the idle-window and IO-bound
flags are written back. -/
def bfq_bfqq_resume_state (q : CoopQueueState) (bic : SavedState) :
    CoopQueueState :=
  { q with idle_window := bic.saved_idle_window
           IO_bound := bic.saved_IO_bound }

/-- Embeds the flag state of a fresh sync, non-idle-class stream as set
by bfq_init_bfqq: idle window marked, IO-bound marked, weight-raise
coefficient one. -/
def bfq_init_bfqq_sync : CoopQueueState :=
  { idle_window := true
    IO_bound := true
    in_large_burst := false
    in_burst_list := false
    wr_coeff := 1 }

/-! ### Activation and preemption (bfq_bfqq_update_budg_for_activation
lines 1036-1080, bfq_update_bfqq_wr_on_rq_arrival lines 1082-1188,
bfq_bfqq_handle_idle_busy_switch lines 1199-1352) -/

/-- The fields of bfq_data that the activation path reads.
softrt_weight_factor is BFQ_SOFTRT_WEIGHT_FACTOR from bfq.h (absent from
this snapshot); in_service_wr_coeff is the wr_coeff of the in-service
queue when one exists; queue_may_preempt is the result of
next_queue_may_preempt(bfqd) from bfq-sched.c (absent), the check that
the newly busy queue's service-tree position would make it the next
selected. -/
structure WrData where
  low_latency : Bool
  bfq_wr_coeff : Nat
  softrt_weight_factor : Nat
  bfq_wr_max_softrt_rate : Nat
  in_service_wr_coeff : Option Nat
  queue_may_preempt : Bool

/-- The fields of the newly busy queue that the activation path reads.
The Boolean fields starting at idle_for_long_time abstract the clock
comparisons of the source: bfq_bfqq_idle_for_long_time, the
soft_rt_next_start test of line 1242, the arrival-in-time test of lines
1213-1215, the split-time window test of lines 1311-1312, and the
remaining-weight-raising-time test of lines 1129-1133. -/
structure ActQueue where
  wr_coeff : Nat
  sync : Bool
  has_bic : Bool
  non_blocking_wait_rq : Bool
  in_large_burst : Bool
  idle_for_long_time : Bool
  soft_rt_time_passed : Bool
  arrived_in_time : Bool
  split_window_passed : Bool
  wr_remaining_lt_rt_max : Bool

/-- The interactive predicate of lines 1243-1245. -/
def wr_interactive (q : ActQueue) : Bool :=
  !q.in_large_burst && q.idle_for_long_time

/-- The soft real-time predicate of lines 1240-1242. -/
def wr_soft_rt (d : WrData) (q : ActQueue) : Bool :=
  decide (0 < d.bfq_wr_max_softrt_rate) && !q.in_large_burst &&
    q.soft_rt_time_passed

/-- The wr_or_deserves_wr predicate of lines 1246-1249. -/
def wr_or_deserves_wr (d : WrData) (q : ActQueue) : Bool :=
  d.low_latency && (decide (1 < q.wr_coeff) ||
    (q.sync && q.has_bic && (wr_interactive q || wr_soft_rt d q)))

/-- Embeds the return value of bfq_bfqq_update_budg_for_activation: the
in-service queue is to be expired for the newly busy queue iff the
latter needs to recover a service hole or is (or deserves to be)
weight-raised. -/
def bfqq_wants_to_preempt (d : WrData) (q : ActQueue) : Bool :=
  (q.non_blocking_wait_rq && q.arrived_in_time) || wr_or_deserves_wr d q

/-- Embeds the effect of bfq_update_bfqq_wr_on_rq_arrival on the queue's
weight-raise coefficient. -/
def bfq_update_bfqq_wr_on_rq_arrival (d : WrData) (q : ActQueue) : Nat :=
  if decide (q.wr_coeff = 1) && wr_or_deserves_wr d q then
    if wr_interactive q then d.bfq_wr_coeff
    else d.bfq_wr_coeff * d.softrt_weight_factor
  else if 1 < q.wr_coeff then
    if wr_interactive q then d.bfq_wr_coeff
    else if q.in_large_burst then 1
    else if q.wr_remaining_lt_rt_max && wr_soft_rt d q then
      d.bfq_wr_coeff * d.softrt_weight_factor
    else q.wr_coeff
  else q.wr_coeff

/-- The weight-raise coefficient of the newly busy queue after
bfq_bfqq_handle_idle_busy_switch ran its weight-raising update (lines
1305-1323): the update only happens under low_latency and outside the
post-split protection window. -/
def handle_switch_new_wr_coeff (d : WrData) (q : ActQueue) : Nat :=
  if d.low_latency && q.split_window_passed then
    bfq_update_bfqq_wr_on_rq_arrival d q
  else q.wr_coeff

/-- Embeds the preemption decision of bfq_bfqq_handle_idle_busy_switch
(lines 1341-1351): the in-service queue is expired with PREEMPTED iff
one exists, the newly busy queue wants to preempt, its (updated)
wr_coeff is strictly higher, and its service-tree position would make it
the next selected. -/
def bfq_handle_idle_busy_switch_preempts (d : WrData) (q : ActQueue) : Bool :=
  match d.in_service_wr_coeff with
  | none => false
  | some w =>
    bfqq_wants_to_preempt d q &&
    decide (w < handle_switch_new_wr_coeff d q) &&
    d.queue_may_preempt

/-! ### Theorems -/

/-- Claim C2: a request of n sectors is charged n when the stream is sync
or weight-raised; otherwise n times the async charge factor (10), doubled
again when some weight-raised stream is busy. -/
theorem serv_to_charge_follows_spec (n : Nat) (q : ChargeCtx) :
    (q.sync = true ∨ 1 < q.wr_coeff → bfq_serv_to_charge n q = n) ∧
    (q.sync = false → q.wr_coeff ≤ 1 → q.wr_busy_queues = 0 →
      bfq_serv_to_charge n q = n * 10) ∧
    (q.sync = false → q.wr_coeff ≤ 1 → 0 < q.wr_busy_queues →
      bfq_serv_to_charge n q = n * 2 * 10) := by
  unfold bfq_serv_to_charge bfq_async_charge_factor
  refine ⟨?_, ?_, ?_⟩
  · rintro (hs | hw)
    · simp [hs]
    · simp [hw]
  · intro hs hw hb
    have hw1 : ¬ (1 < q.wr_coeff) := by omega
    simp [hs, hw1, hb]
  · intro hs hw hb
    have hw1 : ¬ (1 < q.wr_coeff) := by omega
    have hb1 : ¬ (q.wr_busy_queues = 0) := by omega
    simp [hs, hw1, hb1]

/-- Witness for serv_to_charge_follows_spec at a concrete input. -/
theorem serv_to_charge_follows_spec_witness :
    bfq_serv_to_charge 7 ⟨false, 1, 0⟩ = 7 * 10 :=
  (serv_to_charge_follows_spec 7 ⟨false, 1, 0⟩).2.1 rfl (by decide) rfl

/-- Claim C7, counterexample: a candidate 10000 sectors away is within the
8 MiB of the claim (16384 sectors) but bfq_rq_close_to_sector rejects it,
because BFQQ_CLOSE_THR is 8 * 1024 sectors, i.e. 4 MiB. -/
theorem close_thr_is_not_8MiB :
    bfq_rq_close_to_sector 10000 0 = false ∧
    spec_close_within_8MiB 10000 0 = true := by
  constructor
  · decide
  · decide

/-- Claim C7, amended: a candidate is a close cooperator exactly when the
sector distance is at most 8 * 1024 sectors, the equivalent of 4 MiB. -/
theorem close_thr_is_4MiB (pos sector : Int) :
    bfq_rq_close_to_sector pos sector =
      decide ((pos - sector).natAbs ≤ 4 * 1024 * 1024 / 512) := by
  unfold bfq_rq_close_to_sector BFQQ_CLOSE_THR
  norm_num

/-- Claim C5, counterexample: an NCQ-capable rotational device with one
busy weight-raised stream, while the (sync, not raised, not in a burst)
stream at hand sees a non-differentiated weight tree: the claim's reading
of asymmetry (SOME weight-raised stream exists) demands idling, but
bfq_bfqq_may_idle only tests whether the stream ITSELF is weight-raised
and returns false. -/
theorem may_idle_not_spec :
    bfq_bfqq_may_idle ⟨false, true, false, false, false, 1, 1, false, false, true⟩ = false ∧
    spec_may_idle ⟨false, true, false, false, false, 1, 1, false, false, true⟩ = true := by
  constructor
  · decide
  · decide

/-- Claim C5, amended: the device is idled iff strict_guarantees holds,
or the stream is sync and (idling boosts throughput -- no NCQ, or
rotational with an IO-bound, idle-window stream -- with no weight-raised
busy stream; or the stream ITSELF is weight-raised or the weight-counter
trees prove unequal weights, and the stream is not in a large burst). -/
theorem may_idle_characterization (s : IdleCtx) :
    bfq_bfqq_may_idle s =
      (s.strict_guarantees ||
       (s.sync &&
         (((!s.hw_tag || (!s.nonrot && s.IO_bound && s.idle_window)) &&
             decide (s.wr_busy_queues = 0)) ||
          ((decide (1 < s.wr_coeff) || s.differentiated_weights) &&
             !s.in_large_burst)))) := by
  unfold bfq_bfqq_may_idle bfq_symmetric_scenario
  cases hs : s.strict_guarantees <;> simp

/-- Claim C8, counterexample: the timer armed for the stream with pid 1
fires while the stream with pid 2 is in service with its budget timeout
passed; the handler expires pid 2 instead of silently returning, because
it only checks that SOME stream is in service, never that it equals the
one the timer was armed for. -/
theorem idle_slice_timer_expires_other_queue :
    bfq_idle_slice_timer ⟨some ⟨2, true, 0, 0⟩⟩ =
      some (2, Expiration.budget_timeout) ∧ (2 : Nat) ≠ 1 := by
  constructor
  · decide
  · decide

/-- Claim C8, amended: the handler never consults the stream the timer was
armed for; it performs no expiration when no stream is in service, and any
stream it expires is the CURRENT in-service stream (so a racing callback
may expire a stream different from the armed one). -/
theorem idle_slice_timer_targets_in_service (s : TimerCtx) (p : Nat)
    (r : Expiration) (h : bfq_idle_slice_timer s = some (p, r)) :
    ∃ q, s.in_service_queue = some q ∧ q.pid = p := by
  unfold bfq_idle_slice_timer at h
  cases hq : s.in_service_queue with
  | none => rw [hq] at h; exact absurd h (by simp)
  | some q =>
    refine ⟨q, rfl, ?_⟩
    rw [hq] at h
    by_cases hb : q.budget_timeout_passed <;>
      by_cases hz : q.queued_async = 0 && q.queued_sync = 0 <;>
      simp [hb, hz] at h <;> omega

/-- Helper: whenever the window is valid (strictly more sequential
samples would be impossible: seq < samples), the first half of the
rejection test of bfq_update_rate_reset is a tautology, so the code
rejects every sample with raw rate below the estimate regardless of the
sequential fraction. -/
theorem rate_reject_first_test_trivial (samples seq : Nat) (h : seq < samples) :
    (3 * seq) >>> 2 < samples := by
  have h4 : (3 * seq) >>> 2 = 3 * seq / 2 ^ 2 := Nat.shiftRight_eq_div_pow _ _
  have hle : 3 * seq / 4 * 4 ≤ 3 * seq := Nat.div_mul_le_self _ _
  omega

/-- Claim C1: at a window of 32 samples of which 31 are sequential
(fraction 31/32, far above 3/4) and a raw rate of 65 (below the current
estimate 100 and below the 20M cap), the claim says the low-pass filter
is applied, but bfq_update_rate_reset rejects the sample and only resets
the window: its first test compares the counters the wrong way round
(total against 3/4 of sequential instead of sequential against 3/4 of
total), contradicting the comment above it. -/
theorem update_rate_reset_rejects_sequential_sample :
    (bfq_update_rate_reset ⟨32, 31, 1000, 1000000, 0, 0, 0, 100⟩
        (some 8)).peak_rate = 100 ∧
    (bfq_update_rate_reset ⟨32, 31, 1000, 1000000, 0, 0, 0, 100⟩
        (some 8)).peak_rate_samples = 1 ∧
    (1000 <<< BFQ_RATE_SHIFT) / 1000000 % 2 ^ 32 = 65 ∧
    spec_reject_sample 32 31 65 100 = false := by
  refine ⟨?_, ?_, ?_, ?_⟩ <;> decide

/-- Claim C10: in every estimator state reachable from initialisation the
number of sequential samples is strictly below the total sample count as
soon as the window holds a sample (the first dispatch of a window is
counted in peak_rate_samples, never in sequential_samples), hence the
smoothing weight of the low-pass filter is at most 8 and its divisor lies
between 2 and 10, so the filter never divides by zero. -/
theorem peak_rate_filter_divisor_safe (s : RateCounts)
    (hs : RateReachable s) (h0 : 0 < s.samples) :
    s.seq < s.samples ∧
    ∀ delta_us : Nat,
      rate_weight s.seq s.samples delta_us ≤ 8 ∧
      2 ≤ rate_divisor s.seq s.samples delta_us ∧
      rate_divisor s.seq s.samples delta_us ≤ 10 := by
  have inv : ∀ t : RateCounts, RateReachable t → 0 < t.samples →
      t.seq < t.samples := by
    intro t ht
    induction ht with
    | init => intro h; exact absurd h (by decide)
    | dispatch u is_seq long_idle window_full hu ih =>
      intro _
      rcases Nat.eq_zero_or_pos u.samples with hz | hp
      · cases is_seq <;> cases long_idle <;> cases window_full <;>
          simp [bfq_update_peak_rate_counts, hz]
      · have hlt := ih hp
        have hz : ¬ u.samples = 0 := by omega
        cases is_seq <;> cases long_idle <;> cases window_full <;>
          simp [bfq_update_peak_rate_counts, hz] <;> omega
    | completion u hu ih =>
      intro h
      exact absurd h (by simp [rate_counts_late_completion])
  refine ⟨inv s hs h0, ?_⟩
  intro delta_us
  have hw : rate_weight s.seq s.samples delta_us ≤ 8 := Nat.min_le_left _ _
  unfold rate_divisor
  omega

/-- Witness for peak_rate_filter_divisor_safe at the reachable state of
two samples, one sequential. -/
theorem peak_rate_filter_divisor_safe_witness :
    (1 : Nat) < 2 ∧
    ∀ delta_us : Nat,
      rate_weight 1 2 delta_us ≤ 8 ∧
      2 ≤ rate_divisor 1 2 delta_us ∧
      rate_divisor 1 2 delta_us ≤ 10 :=
  peak_rate_filter_divisor_safe ⟨2, 1⟩
    (RateReachable.dispatch ⟨1, 0⟩ true false false
      (RateReachable.dispatch ⟨0, 0⟩ true false false RateReachable.init))
    (by decide)

/-- Claim C3, counterexample.  First input: the user sets a device max
budget of 1000 before any budget is assigned; a weight-raised sync
stream then expires.  The claim gives it 2 x min_budget with min_budget
= max_budget / 32 = 31, i.e. 62; the code's bfq_min_budget is still
based on the default max budget (16384 / 32 = 512), so the stream gets
1024.  Second input: with reliable statistics (194 budgets assigned, no
user budget), a sync stream expiring with NO_MORE_REQUESTS after 40960
sectors of service gets min(max(40960, 512), 16384) = 16384, not the
claimed max(service, min_budget) = 40960, because of the final clamp of
lines 2769-2771. -/
theorem recalc_budget_not_spec_table :
    (__bfq_bfqq_recalc_budget ⟨1000, 0, 1000, 0⟩
        ⟨16384, 0, 0, true, 30, 0, none⟩
        Expiration.budget_timeout).max_budget = 1024 ∧
    2 * ((1000 : Nat) / 32) = 62 ∧ (1024 : Nat) ≠ 62 ∧
    (__bfq_bfqq_recalc_budget ⟨16384, 194, 0, 0⟩
        ⟨16384, 40960, 40960, true, 1, 0, none⟩
        Expiration.no_more_requests).max_budget = 16384 ∧
    max (40960 : Nat) ((16384 : Nat) / 32) = 40960 ∧ (16384 : Nat) ≠ 40960 := by
  refine ⟨?_, ?_, ?_, ?_, ?_, ?_⟩ <;> decide

/-- Claim C3, amended: the post-expiry budget table holds with
min_budget = bfq_min_budget (based on the default max budget until 194
budgets have been assigned, and equal to bfq_max_budget / 32), with the
caps and the async row using the device max-budget field, and with every
row except PREEMPTED further clamped to the device max budget once 194
budgets have been assigned and no user max budget is set. -/
theorem recalc_budget_table (d : BudgetData) (q : BudgetQueue) :
    (q.sync = true → q.wr_coeff = 1 →
      (__bfq_bfqq_recalc_budget d q Expiration.too_idle).max_budget =
        bfq_budget_clamp d
          (if 0 < q.dispatched then min (q.max_budget * 2) d.bfq_max_budget
           else if 5 * bfq_min_budget d < q.max_budget then
             q.max_budget - 4 * bfq_min_budget d
           else bfq_min_budget d) ∧
      (__bfq_bfqq_recalc_budget d q Expiration.budget_timeout).max_budget =
        bfq_budget_clamp d (min (q.max_budget * 2) d.bfq_max_budget) ∧
      (__bfq_bfqq_recalc_budget d q Expiration.budget_exhausted).max_budget =
        bfq_budget_clamp d (min (q.max_budget * 4) d.bfq_max_budget) ∧
      (__bfq_bfqq_recalc_budget d q Expiration.no_more_requests).max_budget =
        bfq_budget_clamp d (max q.service (bfq_min_budget d)) ∧
      (__bfq_bfqq_recalc_budget d q Expiration.preempted).max_budget =
        q.max_budget) ∧
    (q.sync = false → ∀ r : Expiration,
      (__bfq_bfqq_recalc_budget d q r).max_budget =
        bfq_budget_clamp d d.bfq_max_budget) ∧
    (q.sync = true → 1 < q.wr_coeff → ∀ r : Expiration,
      (__bfq_bfqq_recalc_budget d q r).max_budget =
        bfq_budget_clamp d (2 * bfq_min_budget d)) ∧
    bfq_min_budget d = bfq_max_budget d / 32 := by
  refine ⟨?_, ?_, ?_, ?_⟩
  · intro hs hw
    refine ⟨?_, ?_, ?_, ?_, ?_⟩ <;>
      simp [__bfq_bfqq_recalc_budget, hs, hw]
  · intro hs
    intro r
    have hs1 : ¬ q.sync = true := by simp [hs]
    cases r <;> simp [__bfq_bfqq_recalc_budget, hs, hs1]
  · intro hs hw
    intro r
    have hw1 : ¬ q.wr_coeff = 1 := by omega
    cases r <;> simp [__bfq_bfqq_recalc_budget, hs, hw1]
  · unfold bfq_min_budget bfq_max_budget
    split <;> rfl

/-- Witness for recalc_budget_table at a concrete sync non-raised queue. -/
theorem recalc_budget_table_witness :
    (__bfq_bfqq_recalc_budget ⟨16384, 194, 0, 0⟩
        ⟨8192, 0, 0, true, 1, 3, none⟩
        Expiration.budget_timeout).max_budget =
      bfq_budget_clamp ⟨16384, 194, 0, 0⟩
        (min ((⟨8192, 0, 0, true, 1, 3, none⟩ : BudgetQueue).max_budget * 2)
          (⟨16384, 194, 0, 0⟩ : BudgetData).bfq_max_budget) :=
  ((recalc_budget_table ⟨16384, 194, 0, 0⟩
      ⟨8192, 0, 0, true, 1, 3, none⟩).1 rfl rfl).2.1

/-- Claim C9, counterexample: an async queue whose single 2048-sector
request was charged 40960 (two busy weight-raised queues double the
async factor) has service = budget = 40960; expiring it with
BUDGET_EXHAUSTED recalculates the entity budget down to the device max
16384 while the service stays at 40960, so this expiration does not
preserve service at most budget. -/
theorem expire_can_break_budget_invariant :
    (⟨16384, 40960, 40960, false, 1, 0, some 10⟩ : BudgetQueue).service ≤
      (⟨16384, 40960, 40960, false, 1, 0, some 10⟩ : BudgetQueue).budget ∧
    (__bfq_bfqq_recalc_budget ⟨16384, 194, 0, 1⟩
        ⟨16384, 40960, 40960, false, 1, 0, some 10⟩
        Expiration.budget_exhausted).service = 40960 ∧
    (__bfq_bfqq_recalc_budget ⟨16384, 194, 0, 1⟩
        ⟨16384, 40960, 40960, false, 1, 0, some 10⟩
        Expiration.budget_exhausted).budget = 16384 ∧
    ¬ ((__bfq_bfqq_recalc_budget ⟨16384, 194, 0, 1⟩
          ⟨16384, 40960, 40960, false, 1, 0, some 10⟩
          Expiration.budget_exhausted).service ≤
        (__bfq_bfqq_recalc_budget ⟨16384, 194, 0, 1⟩
          ⟨16384, 40960, 40960, false, 1, 0, some 10⟩
          Expiration.budget_exhausted).budget) := by
  refine ⟨?_, ?_, ?_, ?_⟩ <;> decide

/-- Claim C9, amended: every dispatch preserves the budget invariant:
when the charge of the picked request fits in the remaining budget and
the queue is charged, service stays at most budget (service, a Nat, is
non-negative throughout). -/
theorem dispatch_preserves_budget_invariant (q q1 : BudgetQueue)
    (charge : Nat) (_hsb : q.service ≤ q.budget)
    (hd : bfq_dispatch_request_charge q charge = some q1) :
    q1.service ≤ q1.budget := by
  unfold bfq_dispatch_request_charge at hd
  by_cases h : bfq_bfqq_budget_left q < (charge : Int)
  · simp [h] at hd
  · simp [h] at hd
    unfold bfq_bfqq_budget_left at h
    subst hd
    unfold bfq_bfqq_served
    simp only []
    omega

/-- Witness for dispatch_preserves_budget_invariant at a concrete
dispatch of charge 100 from a queue with budget 1000, service 50. -/
theorem dispatch_preserves_budget_invariant_witness :
    (bfq_bfqq_served ⟨16384, 50, 1000, true, 1, 0, none⟩ 100).service ≤
      (bfq_bfqq_served ⟨16384, 50, 1000, true, 1, 0, none⟩ 100).budget :=
  dispatch_preserves_budget_invariant ⟨16384, 50, 1000, true, 1, 0, none⟩
    (bfq_bfqq_served ⟨16384, 50, 1000, true, 1, 0, none⟩ 100) 100
    (by decide) rfl

/-- Claim C4: a stream with the idle window cleared and weight-raise
coefficient 30 is merged (bfq_bfqq_save_state) and later split; the
fresh detached stream gets the saved idle-window flag back but keeps the
weight-raise coefficient 1 of a fresh queue: bfq_bfqq_save_state stores
no weight-raising field at all and bfq_bfqq_resume_state restores only
the idle-window and IO-bound flags, although the comments in
bfq_merge_bfqqs and bfq_set_request say the weight-raising state is
saved and restored. -/
theorem split_does_not_restore_wr :
    (bfq_bfqq_resume_state bfq_init_bfqq_sync
        (bfq_bfqq_save_state ⟨false, true, false, false, 30⟩)).idle_window
      = false ∧
    (bfq_bfqq_resume_state bfq_init_bfqq_sync
        (bfq_bfqq_save_state ⟨false, true, false, false, 30⟩)).wr_coeff
      = 1 ∧
    (⟨false, true, false, false, 30⟩ : CoopQueueState).wr_coeff = 30 ∧
    (1 : Nat) ≠ 30 := by
  refine ⟨?_, ?_, ?_, ?_⟩ <;> decide

/-- Claim C6: on an empty-to-busy transition, if an in-service queue
exists (with the invariant coefficient at least 1), the newly busy
queue's updated wr_coeff is strictly higher, and its service-tree
position would make it the next selected, then the in-service queue is
expired with PREEMPTED.  The hypothesis tying low_latency to a unit
coefficient reflects bfq_end_wr: switching low_latency off ends every
weight-raising period, so a queue can only have wr_coeff above 1 while
low_latency is set. -/
theorem higher_wr_activation_preempts (d : WrData) (q : ActQueue) (w : Nat)
    (hin : d.in_service_wr_coeff = some w) (hw : 1 ≤ w)
    (hll : d.low_latency = false → q.wr_coeff = 1)
    (hgt : w < handle_switch_new_wr_coeff d q)
    (hmp : d.queue_may_preempt = true) :
    bfq_handle_idle_busy_switch_preempts d q = true := by
  unfold bfq_handle_idle_busy_switch_preempts
  rw [hin]
  simp [hmp, hgt]
  cases hl : d.low_latency with
  | false =>
    exfalso
    have h1 : q.wr_coeff = 1 := hll hl
    have h2 : handle_switch_new_wr_coeff d q = q.wr_coeff := by
      unfold handle_switch_new_wr_coeff
      simp [hl]
    omega
  | true =>
    by_cases hdes : wr_or_deserves_wr d q = true
    · unfold bfqq_wants_to_preempt
      simp [hdes]
    · exfalso
      have hdes1 : wr_or_deserves_wr d q = false := by
        simpa using hdes
      by_cases hc : 1 < q.wr_coeff
      · have : wr_or_deserves_wr d q = true := by
          unfold wr_or_deserves_wr
          simp [hl, hc]
        simp [this] at hdes1
      · have h2 : handle_switch_new_wr_coeff d q = q.wr_coeff := by
          unfold handle_switch_new_wr_coeff
          unfold bfq_update_bfqq_wr_on_rq_arrival
          simp [hdes1, hc]
        omega

/-- Witness for higher_wr_activation_preempts: a weight-raised (coeff
30) sync queue becomes busy while the in-service queue has coefficient
1 and the service tree allows preemption. -/
theorem higher_wr_activation_preempts_witness :
    bfq_handle_idle_busy_switch_preempts
      ⟨true, 30, 100, 7000, some 1, true⟩
      ⟨30, true, true, false, false, false, false, false, true, false⟩ = true :=
  higher_wr_activation_preempts
    ⟨true, 30, 100, 7000, some 1, true⟩
    ⟨30, true, true, false, false, false, false, false, true, false⟩ 1
    rfl (by decide) (by decide) (by decide) rfl

/-- Witness for idle_slice_timer_targets_in_service: when the queue with
pid 5 is in service with its budget timeout passed, the expired queue is
that in-service queue. -/
theorem idle_slice_timer_targets_in_service_witness :
    ∃ q, (⟨some ⟨5, true, 0, 0⟩⟩ : TimerCtx).in_service_queue = some q ∧
      q.pid = 5 :=
  idle_slice_timer_targets_in_service ⟨some ⟨5, true, 0, 0⟩⟩ 5
    Expiration.budget_timeout rfl
